import Mathlib

/-!
Shallow embedding of the IQ Option algorithmic-trading client
(`version2` of the repository), covering the message handler
(`wsmanager/message_handler.py`), the websocket receive path
(`wsmanager/iqwebsocket.py`), the correlated waits in `trade.py` and
`accounts.py`, and the connected-state guard of `iqclient.py`.

Python JSON values (the payloads handed around as dicts) are modelled by
the inductive type `Json` below; Python `None` and JSON `null` are both
`Json.null`, matching `json.loads`. Numbers are modelled as integers:
every number the verified claims touch is integral. Python dicts are
association lists with first-match lookup (keys are unique in any dict
produced by `json.loads` or by the code). Dict keys must be hashable in
Python, so the key type `JKey` holds only scalars; using an unhashable
value as a key raises `TypeError`, as in Python.
-/

namespace IQBot

/-- JSON values, as produced by `json.loads` in the receive path.
Objects are association lists of string keys. -/
inductive Json where
  | null : Json
  | bool (b : Bool) : Json
  | num (n : Int) : Json
  | str (s : String) : Json
  | arr (xs : List Json) : Json
  | obj (fields : List (String × Json)) : Json
deriving Repr

/-- A hashable Python value usable as a dict key (scalars only;
lists and dicts are unhashable). -/
inductive JKey where
  | null : JKey
  | bool (b : Bool) : JKey
  | num (n : Int) : JKey
  | str (s : String) : JKey
deriving DecidableEq, Repr

/-- A raised Python exception: its class name and its message. -/
structure PyErr where
  cls : String
  msg : String
deriving DecidableEq, Repr

/-- First-match lookup of a key in an object's field list
(Python dict lookup; keys are unique in dicts). -/
def lookupField : List (String × Json) → String → Option Json
  | [], _ => none
  | (k, v) :: rest, key => if k = key then some v else lookupField rest key

/-- Python `d.get(key)` on a dict whose fields are `fs`: `None` when the
key is absent.  Since JSON `null` also parses to Python `None`, the
absent and null cases collapse to `Json.null`. -/
def dictGetD (fs : List (String × Json)) (key : String) : Json :=
  (lookupField fs key).getD .null

/-- Python subscript `d[key]` with a string key: `KeyError` when the key
is missing, `TypeError` when the value is not a dict. -/
def pyIndex (d : Json) (key : String) : Except PyErr Json :=
  match d with
  | .obj fs =>
    match lookupField fs key with
    | some v => .ok v
    | none => .error ⟨"KeyError", key⟩
  | _ => .error ⟨"TypeError", "object is not subscriptable"⟩

/-- Python `d.get(key)`: `AttributeError` when the value is not a dict,
otherwise the value, or `None` (= `Json.null`) when absent. -/
def pyGet (d : Json) (key : String) : Except PyErr Json :=
  match d with
  | .obj fs => .ok (dictGetD fs key)
  | _ => .error ⟨"AttributeError", "object has no attribute get"⟩

/-- Python `xs[0]`: first element of a list (`IndexError` when empty),
first character of a string, `TypeError` otherwise. -/
def pyIndexZero (d : Json) : Except PyErr Json :=
  match d with
  | .arr [] => .error ⟨"IndexError", "list index out of range"⟩
  | .arr (x :: _) => .ok x
  | .str s =>
    match s.toList with
    | [] => .error ⟨"IndexError", "string index out of range"⟩
    | c :: _ => .ok (.str (String.singleton c))
  | _ => .error ⟨"TypeError", "object is not subscriptable"⟩

/-- Python iteration `for x in v`: list elements, dict keys, or the
characters of a string; scalars are not iterable. -/
def pyIterate (d : Json) : Except PyErr (List Json) :=
  match d with
  | .arr xs => .ok xs
  | .obj fs => .ok (fs.map (fun kv => .str kv.1))
  | .str s => .ok (s.toList.map (fun c => .str (String.singleton c)))
  | _ => .error ⟨"TypeError", "object is not iterable"⟩

/-- `v is None` / `v is not None` tests. -/
def Json.isNull : Json → Bool
  | .null => true
  | _ => false

/-- Python `isinstance(v, int)` on a JSON-decoded value: true for
numbers and for booleans (`bool` is a subclass of `int` in Python). -/
def Json.isInt : Json → Bool
  | .num _ => true
  | .bool _ => true
  | _ => false

/-- Python `v == n` against an integer constant (`True == 1` holds in
Python; other cross-type comparisons are `False`). -/
def Json.eqNum (j : Json) (n : Int) : Bool :=
  match j with
  | .num m => m == n
  | .bool b => (if b then (1 : Int) else 0) == n
  | _ => false

/-- Python `v == s` against a string constant. -/
def Json.eqStr (j : Json) (s : String) : Bool :=
  match j with
  | .str t => t == s
  | _ => false

/-- Conversion of a value to a dict key; lists and dicts are unhashable
(`TypeError`), everything else keys a dict by its value. -/
def Json.toKey : Json → Except PyErr JKey
  | .null => .ok .null
  | .bool b => .ok (.bool b)
  | .num n => .ok (.num n)
  | .str s => .ok (.str s)
  | _ => .error ⟨"TypeError", "unhashable type"⟩

/-- Python `int(v)`: identity on ints, 0/1 on bools, string parse
(`ValueError` on failure), `TypeError` otherwise. -/
def pyInt (j : Json) : Except PyErr Int :=
  match j with
  | .num n => .ok n
  | .bool b => .ok (if b then 1 else 0)
  | .str s =>
    match s.toInt? with
    | some n => .ok n
    | none => .error ⟨"ValueError", "invalid literal for int"⟩
  | _ => .error ⟨"TypeError", "int argument must be a string or a number"⟩

/-- A Python dict with hashable keys, as an association list. -/
abbrev JMap : Type := List (JKey × Json)

/-- Dict update `m[k] = v`: replace in place when the key exists,
append otherwise (insertion order preserved, as in Python). -/
def setKey (m : JMap) (k : JKey) (v : Json) : JMap :=
  match m with
  | [] => [(k, v)]
  | (k', v') :: rest => if k' = k then (k, v) :: rest else (k', v') :: setKey rest k v

/-- Dict lookup `m.get(k)`. -/
def getKey (m : JMap) (k : JKey) : Option Json :=
  match m with
  | [] => none
  | (k', v) :: rest => if k' = k then some v else getKey rest k

/-- The canonical `Json` value of a dict key (every key arises from a
hashable value). -/
def JKey.toJson : JKey → Json
  | .null => .null
  | .bool b => .bool b
  | .num n => .num n
  | .str s => .str s

/-! ## MessageHandler (`wsmanager/message_handler.py`)

Handler methods mutate instance attributes in place and Python does not
roll back on exceptions, so each handler returns the state as mutated up
to the point of the raise plus the escaped exception, if any. -/

/-- The fields of `MessageHandler.__init__`, plus `active_balance_id`,
an attribute created dynamically by `_handle_profile` (absent before the
first profile message).  Fields initialized to Python `None` hold
`Json.null`.  `open_positions` is the two sub-dicts `digital_options`
and `binary_options`. -/
structure HState where
  server_time : Json := .null
  profile_msg : Json := .null
  balance_data : Json := .null
  candles : Json := .null
  underlying_list : Json := .null
  initialization_data : Json := .null
  underlying_assests : Json := .null
  hisory_positions : Json := .null
  open_positions_digital : JMap := []
  open_positions_binary : JMap := []
  position_info : JMap := []
  active_balance_id : Option Json := none
deriving Repr

/-- The freshly constructed `MessageHandler()`. -/
def initHState : HState := {}

/-- Result of running one handler: the state as mutated so far and the
exception that escaped, if any. -/
abbrev HRes : Type := HState × Option PyErr

/-- `_handle_server_time`: `self.server_time = message['msg']`. -/
def handleServerTime (m : Json) (s : HState) : HRes :=
  match pyIndex m "msg" with
  | .error e => (s, some e)
  | .ok v => ({ s with server_time := v }, none)

/-- The `for balance in balances` loop of `_handle_profile`: store the
id of the first balance with `type == 4` into `active_balance_id`, then
`break`. -/
def profileBalanceLoop (s : HState) : List Json → HRes
  | [] => (s, none)
  | b :: rest =>
    match pyIndex b "type" with
    | .error e => (s, some e)
    | .ok t =>
      if t.eqNum 4 then
        match pyIndex b "id" with
        | .error e => (s, some e)
        | .ok i => ({ s with active_balance_id := some i }, none)
      else profileBalanceLoop s rest

/-- `_handle_profile`: stores the whole message into `profile_msg`
first, then reads `message['msg']['balances']` (a raise here leaves
`profile_msg` already mutated) and scans for the demo balance. -/
def handleProfile (m : Json) (s : HState) : HRes :=
  let s1 := { s with profile_msg := m }
  match pyIndex m "msg" with
  | .error e => (s1, some e)
  | .ok msgv =>
    match pyIndex msgv "balances" with
    | .error e => (s1, some e)
    | .ok balances =>
      match pyIterate balances with
      | .error e => (s1, some e)
      | .ok bs => profileBalanceLoop s1 bs

/-- `_handle_balances`: `self.balance_data = message['msg']`. -/
def handleBalances (m : Json) (s : HState) : HRes :=
  match pyIndex m "msg" with
  | .error e => (s, some e)
  | .ok v => ({ s with balance_data := v }, none)

/-- `_handle_training_balance_reset`: branches on the top-level
`message['status']`; the `4001` branch evaluates
`message['msg']['message']` for the log line.  Only logging happens, no
state is written. -/
def handleTrainingBalanceReset (m : Json) (s : HState) : HRes :=
  match pyIndex m "status" with
  | .error e => (s, some e)
  | .ok st =>
    if st.eqNum 2000 then (s, none)
    else if st.eqNum 4001 then
      match pyIndex m "msg" with
      | .error e => (s, some e)
      | .ok msgv =>
        match pyIndex msgv "message" with
        | .error e => (s, some e)
        | .ok _ => (s, none)
    else (s, none)

/-- `_handle_initialization_data`:
`self._underlying_assests = message['msg']`. -/
def handleInitializationData (m : Json) (s : HState) : HRes :=
  match pyIndex m "msg" with
  | .error e => (s, some e)
  | .ok v => ({ s with underlying_assests := v }, none)

/-- `_handle_candles`: `self.candles = message['msg']['candles']` —
assignment, so the projection is replaced wholesale. -/
def handleCandles (m : Json) (s : HState) : HRes :=
  match pyIndex m "msg" with
  | .error e => (s, some e)
  | .ok msgv =>
    match pyIndex msgv "candles" with
    | .error e => (s, some e)
    | .ok cs => ({ s with candles := cs }, none)

/-- `_handle_underlying_list`: digital-option payloads nest assets under
`underlying`, the rest under `items`. -/
def handleUnderlyingList (m : Json) (s : HState) : HRes :=
  match pyIndex m "msg" with
  | .error e => (s, some e)
  | .ok msgv =>
    match pyGet msgv "type" with
    | .error e => (s, some e)
    | .ok t =>
      if t.eqStr "digital-option" then
        match pyIndex msgv "underlying" with
        | .error e => (s, some e)
        | .ok v => ({ s with underlying_assests := v }, none)
      else
        match pyIndex msgv "items" with
        | .error e => (s, some e)
        | .ok v => ({ s with underlying_assests := v }, none)

/-- `_handle_position_history`:
`self.hisory_positions = message['msg']['positions']`. -/
def handlePositionHistory (m : Json) (s : HState) : HRes :=
  match pyIndex m "msg" with
  | .error e => (s, some e)
  | .ok msgv =>
    match pyIndex msgv "positions" with
    | .error e => (s, some e)
    | .ok ps => ({ s with hisory_positions := ps }, none)

/-- `_handle_digital_option_placed`: when `message['msg'].get('id')` is
not `None`, store that id into `open_positions['digital_options']` at
key `message['request_id']`; otherwise store
`message['msg'].get('message')` at the same key.  A plain dict
assignment: an existing entry under the same key is replaced. -/
def handleDigitalOptionPlaced (m : Json) (s : HState) : HRes :=
  match pyIndex m "msg" with
  | .error e => (s, some e)
  | .ok msgv =>
    match pyGet msgv "id" with
    | .error e => (s, some e)
    | .ok idv =>
      match pyIndex m "request_id" with
      | .error e => (s, some e)
      | .ok rid =>
        match rid.toKey with
        | .error e => (s, some e)
        | .ok k =>
          if idv.isNull then
            match pyGet msgv "message" with
            | .error e => (s, some e)
            | .ok msgstr =>
              ({ s with open_positions_digital :=
                  setKey s.open_positions_digital k msgstr }, none)
          else
            ({ s with open_positions_digital :=
                setKey s.open_positions_digital k idv }, none)

/-- `_handle_position_changed`: store the whole `message['msg']` into
`position_info` at key `int(message['msg']['raw_event']['order_ids'][0])`.
The trailing `_save_data(message['msg'], 'positions')` writes a debug
file on disk and touches no handler state. -/
def handlePositionChanged (m : Json) (s : HState) : HRes :=
  match pyIndex m "msg" with
  | .error e => (s, some e)
  | .ok msgv =>
    match pyIndex msgv "raw_event" with
    | .error e => (s, some e)
    | .ok rev =>
      match pyIndex rev "order_ids" with
      | .error e => (s, some e)
      | .ok oids =>
        match pyIndexZero oids with
        | .error e => (s, some e)
        | .ok o0 =>
          match pyInt o0 with
          | .error e => (s, some e)
          | .ok n =>
            ({ s with position_info := setKey s.position_info (.num n) msgv }, none)

/-- `handle_message`: look up `message.get('name')` in the handler
dict and invoke the handler when one is registered; unknown (or absent,
or non-string) names fall through silently. -/
def handle_message (m : Json) (s : HState) : HRes :=
  match pyGet m "name" with
  | .error e => (s, some e)
  | .ok name =>
    if name.eqStr "profile" then handleProfile m s
    else if name.eqStr "candles" then handleCandles m s
    else if name.eqStr "balances" then handleBalances m s
    else if name.eqStr "timeSync" then handleServerTime m s
    else if name.eqStr "underlying-list" then handleUnderlyingList m s
    else if name.eqStr "initialization-data" then handleInitializationData m s
    else if name.eqStr "training-balance-reset" then handleTrainingBalanceReset m s
    else if name.eqStr "history-positions" then handlePositionHistory m s
    else if name.eqStr "digital-option-placed" then handleDigitalOptionPlaced m s
    else if name.eqStr "position-changed" then handlePositionChanged m s
    else (s, none)

/-- Whether a value is one of the ten message names registered in the
`handlers` dict of `handle_message` (dict keys are strings, so a
non-string name never matches any key). -/
def isRegisteredName (j : Json) : Bool :=
  j.eqStr "profile" || j.eqStr "candles" || j.eqStr "balances" ||
  j.eqStr "timeSync" || j.eqStr "underlying-list" ||
  j.eqStr "initialization-data" || j.eqStr "training-balance-reset" ||
  j.eqStr "history-positions" || j.eqStr "digital-option-placed" ||
  j.eqStr "position-changed"

/-- Python `==` between JSON-decoded values: structural, with the
`bool`/`int` cross-type equalities (`True == 1`), element-wise on lists
and key-wise (order-independent) on dicts. -/
def pyEq : Json → Json → Bool
  | .null, .null => true
  | .bool a, .bool b => a == b
  | .bool a, .num b => (if a then (1 : Int) else 0) == b
  | .num a, .bool b => a == (if b then (1 : Int) else 0)
  | .num a, .num b => a == b
  | .str a, .str b => a == b
  | .arr xs, .arr ys => pyEqList xs ys
  | .obj xs, .obj ys => xs.length == ys.length && pyEqFields xs ys
  | _, _ => false
where
  pyEqList : List Json → List Json → Bool
    | [], [] => true
    | x :: xs, y :: ys => pyEq x y && pyEqList xs ys
    | _, _ => false
  pyEqFields : List (String × Json) → List (String × Json) → Bool
    | [], _ => true
    | (k, v) :: rest, ys => pyEqLookup k v ys && pyEqFields rest ys
  pyEqLookup (k : String) (v : Json) : List (String × Json) → Bool
    | [] => false
    | (k', v') :: rest => if k' = k then pyEq v v' else pyEqLookup k v rest

/-- Python truthiness (`if not v`): `None`, `False`, `0`, and empty
containers are falsy. -/
def pyFalsy : Json → Bool
  | .null => true
  | .bool b => !b
  | .num n => n == 0
  | .str s => s == ""
  | .arr xs => xs.isEmpty
  | .obj fs => fs.isEmpty

/-! ## WebSocketManager receive path (`wsmanager/iqwebsocket.py`) -/

/-- The manager's own state: the `ws_is_active` flag (false at
construction) and the shared `MessageHandler`. -/
structure WsState where
  ws_is_active : Bool
  handler : HState

/-- `WebSocketManager.__init__` with a fresh `MessageHandler`. -/
def initWsState : WsState := { ws_is_active := false, handler := initHState }

/-- A callback delivered by the websocket-client library.  `json.loads`
is Python stdlib, external to the repository; its outcome on the raw
frame text is modelled as `none` (it raises `json.JSONDecodeError`) or
`some j` (the parsed value). -/
inductive WsEvent where
  | onOpen : WsEvent
  | onMessage (parsed : Option Json) : WsEvent

/-- One callback invocation.  `_on_open` does nothing (`pass`).
`_on_message` parses, forwards to `handle_message`, and only then sets
`ws_is_active = True`; its `try` catches only `json.JSONDecodeError`
(print and drop the frame), so an exception raised inside a handler
escapes the callback (second component), with the handler state as
mutated up to the raise kept — Python does not roll back — and
`ws_is_active` not set. -/
def stepEvent (w : WsState) (ev : WsEvent) : WsState × Option PyErr :=
  match ev with
  | .onOpen => (w, none)
  | .onMessage none => (w, none)
  | .onMessage (some j) =>
    match handle_message j w.handler with
    | (h, some e) => ({ w with handler := h }, some e)
    | (h, none) => ({ ws_is_active := true, handler := h }, none)

/-- The state after a sequence of callbacks. -/
def runEvents (w : WsState) (evs : List WsEvent) : WsState :=
  evs.foldl (fun w ev => (stepEvent w ev).1) w

/-! ## Envelope codec

The send path (`send_message`) serializes
`dict(name=name, msg=msg, request_id=request_id)` with `json.dumps`;
the receive path parses with `json.loads` and the handlers read the
fields `name`, `msg` and `request_id`.  The codec is modelled at the
logical (field-value) level: `json.dumps`/`json.loads` are Python
stdlib and mutually inverse on JSON values. -/

/-- The outbound envelope object built by `send_message`. -/
def encodeEnvelope (name msg request_id : Json) : Json :=
  .obj [("name", name), ("msg", msg), ("request_id", request_id)]

/-- Decoding of an inbound frame into its logical
`{name, msg, request_id}` triple; a frame is a well-formed envelope
exactly when it is an object carrying all three fields. -/
def decodeEnvelope (j : Json) : Option (Json × Json × Json) :=
  match j with
  | .obj fs =>
    match lookupField fs "name", lookupField fs "msg", lookupField fs "request_id" with
    | some n, some m, some r => some (n, m, r)
    | _, _, _ => none
  | _ => none

/-! ## Timing utilities (`utilities.py`)

`datetime.fromtimestamp(ts).replace(second=0, microsecond=0)` floors a
timestamp to its minute (UTC offsets are whole minutes, so flooring in
local time equals flooring the epoch value); the arithmetic is carried
out in integral milliseconds, which is exact for the integral
server-time inputs modelled here. -/

/-- `get_expiration(timestamp, expiry)`: millisecond timestamp in,
second timestamp out; keeps at least 31 seconds to expiry by pushing to
the next minute when needed. -/
def get_expiration (tms : Int) (expiry : Int) : Int :=
  let nowHm : Int := 60 * tms.fdiv 60000
  if expiry == 1 then
    if (nowHm + 60) * 1000 - tms ≥ 31000 then nowHm + 60
    else nowHm + 120
  else
    if (nowHm + 60) * 1000 - tms < 31000 then nowHm + 60 * (expiry + 1)
    else nowHm + 60 * expiry

/-- `get_remaining_secs(timestamp, duration)` — `int(timestamp/1000)`
truncates toward zero, as Python `int()` on a float. -/
def get_remaining_secs (tms : Int) (duration : Int) : Int :=
  get_expiration tms duration - Int.tdiv tms 1000

/-! ## Correlated waits

The poll loops read a projection that the router thread mutates
concurrently; a wait is modelled over the finite sequence of snapshots
the loop reads before its deadline: one list element per
`time.sleep`-separated poll, an exhausted list meaning
`time.time() - start_time` crossed the timeout (so with a 10-second
timeout and 0.1-second sleeps the list has about 100 elements). -/

/-- `TradeManager.wait_for_oreder_confirmation(request_id, expiry,
timeout=10)` over the snapshots of
`open_positions['digital_options']`.  `.ok` carries the returned Python
value: the `(True, order_id)` / `(False, error_message)` tuple as a
two-element array, or `None` when the loop times out — the code logs
"Order Confirmation timed out" and falls through without raising.  The
success branch formats `get_remaining_secs(server_time, expiry)` into
its log line, which raises `TypeError` when `server_time` is still
`None`. -/
def wait_for_oreder_confirmation (serverTime : Json) (request_id : JKey)
    (expiry : Int) (polls : List JMap) : Except PyErr Json :=
  match polls with
  | [] => .ok .null
  | mp :: rest =>
    match getKey mp request_id with
    | none => wait_for_oreder_confirmation serverTime request_id expiry rest
    | some result =>
      if result.isNull then
        wait_for_oreder_confirmation serverTime request_id expiry rest
      else if result.isInt then
        match serverTime with
        | .num t =>
          let _ := get_remaining_secs t expiry
          .ok (.arr [.bool true, result])
        | .bool b =>
          let _ := get_remaining_secs (if b then 1 else 0) expiry
          .ok (.arr [.bool true, result])
        | _ => .error ⟨"TypeError", "unsupported operand type for /"⟩
      else .ok (.arr [.bool false, result])

/-- The wait loop of `AccountManager._send_position_query` over the
snapshots of `hisory_positions`: `TimeoutError` once the 10-second
deadline passes, else the first non-None snapshot. -/
def sendPositionQueryWait (polls : List Json) : Except PyErr Json :=
  match polls with
  | [] => .error ⟨"TimeoutError", "Timeout waiting for position history response"⟩
  | v :: rest => if v.isNull then sendPositionQueryWait rest else .ok v

/-! ## Domain calls (`iqclient.py`, `accounts.py`, `markets.py`, `trade.py`)

Each public façade method of `IQOptionAlgoAPI` is embedded as a function
from the client state and an environment to a Python outcome plus the
list of frames it pushed through `send_message`.  The environment
carries everything external to the repository: the snapshots the poll
loops read (written concurrently by the router thread), the random
request id of a trade, the stdlib datetime formatter, and the
`UNDERLYING_ASSESTS` table (a generated file, not part of the source
tree). -/

/-- One outbound frame recorded by `WebSocketManager.send_message`: the
websocket-level name and the payload (the request id, when left empty,
is synthesized from the clock and is external detail). -/
structure SentMsg where
  name : String
  msg : Json
deriving Repr

/-- The client-side state a domain call reads:
`IQOptionAlgoAPI._connected`, the shared `MessageHandler`, and the
`AccountManager`'s current account fields. -/
structure ClientState where
  connected : Bool
  handler : HState
  currentAccountId : Json
  currentAccountType : String

/-- External inputs of a domain call (see section comment). -/
structure Env where
  balanceSnaps : List Json := []
  candleSnaps : List Json := []
  historySnaps : List Json := []
  digitalPositionSnaps : List JMap := []
  positionInfoSnaps : List JMap := []
  randInt : Nat := 0
  timestampsResult : Json × Json := (.null, .null)
  formatDate : Int → String := fun _ => ""
  assetTable : List (String × Int) := []

/-- Result of a Python call: a returned value (`None` = `Json.null`), a
raised exception, or a poll loop that never exits within the modelled
snapshot trace (the code would keep spinning). -/
inductive PyOutcome where
  | ok (v : Json)
  | exn (e : PyErr)
  | hangs
deriving Repr

/-- The message of the plain `Exception` that `_ensure_connected`
raises. -/
def notConnectedMsg : String := "Bot is not connected. Call connect() first."

/-- `IQOptionAlgoAPI._ensure_connected`: raises a plain `Exception`
(no dedicated exception class exists in the code) when `_connected` is
false. -/
def ensureConnected (connected : Bool) : Option PyErr :=
  if connected then none else some ⟨"Exception", notConnectedMsg⟩

/-- Poll `while field is None: sleep(0.1)` with no timeout: the first
non-None snapshot, or no exit within the modelled trace. -/
def pollNotNull : List Json → Option Json
  | [] => none
  | v :: rest => if v.isNull then pollNotNull rest else some v

/-- The `internal-billing.get-balances` payload of
`AccountManager.get_account_balances`. -/
def getBalancesMsg : Json :=
  .obj [("name", .str "internal-billing.get-balances"),
        ("version", .str "1.0"),
        ("body", .obj [("types_ids", .arr [.num 1, .num 4, .num 2, .num 6]),
                       ("tournaments_statuses_ids", .arr [.num 3, .num 2])])]

/-- `AccountManager.get_account_balances`: resets `balance_data`, sends
the query, polls without timeout, returns the balance list. -/
def get_account_balances (env : Env) : PyOutcome × List SentMsg :=
  match pollNotNull env.balanceSnaps with
  | some v => (.ok v, [⟨"sendMessage", getBalancesMsg⟩])
  | none => (.hangs, [⟨"sendMessage", getBalancesMsg⟩])

/-- The `for account in accounts` loop of
`get_active_account_balance`: the `amount` of the account whose `id`
equals the current account id; `None` when the loop falls through. -/
def activeBalanceLoop (currentId : Json) : List Json → PyOutcome
  | [] => .ok .null
  | a :: rest =>
    match pyIndex a "id" with
    | .error e => .exn e
    | .ok i =>
      if pyEq i currentId then
        match pyIndex a "amount" with
        | .error e => .exn e
        | .ok amt => .ok amt
      else activeBalanceLoop currentId rest

/-- `AccountManager.get_active_account_balance`. -/
def get_active_account_balance (c : ClientState) (env : Env) :
    PyOutcome × List SentMsg :=
  match get_account_balances env with
  | (.ok v, sent) =>
    match pyIterate v with
    | .error e => (.exn e, sent)
    | .ok accounts => (activeBalanceLoop c.currentAccountId accounts, sent)
  | other => other

/-- Python `xs[-1]`. -/
def pyIndexLast (d : Json) : Except PyErr Json :=
  match d with
  | .arr xs =>
    match xs.getLast? with
    | some v => .ok v
    | none => .error ⟨"IndexError", "list index out of range"⟩
  | _ => .error ⟨"TypeError", "object is not subscriptable"⟩

/-- `AccountManager.refill_demo_balance(amount)`: builds the
`internal-billing.reset-training-balance` payload from
`profile_msg['msg']['balances'][-1]['id']`, sends it, sleeps one
second, returns `None`. -/
def refill_demo_balance (h : HState) (amount : Int) : PyOutcome × List SentMsg :=
  match pyIndex h.profile_msg "msg" with
  | .error e => (.exn e, [])
  | .ok msgv =>
    match pyIndex msgv "balances" with
    | .error e => (.exn e, [])
    | .ok bals =>
      match pyIndexLast bals with
      | .error e => (.exn e, [])
      | .ok lastb =>
        match pyIndex lastb "id" with
        | .error e => (.exn e, [])
        | .ok bid =>
          let msg : Json :=
            .obj [("name", .str "internal-billing.reset-training-balance"),
                  ("version", .str "4.0"),
                  ("body", .obj [("amount", .num amount),
                                 ("user_balance_id", bid)])]
          (.ok .null, [⟨"sendMessage", msg⟩])

/-- `ACCOUNT_TOURNAMENT = 2` (settings.py). -/
def ACCOUNT_TOURNAMENT : Int := 2

/-- The list comprehension of `get_tournament_accounts`: a
`TournamentAccount(id, name, balance)` per balance entry of type 2. -/
def tournamentLoop : List Json → Except PyErr (List Json)
  | [] => .ok []
  | item :: rest =>
    match pyIndex item "type" with
    | .error e => .error e
    | .ok t =>
      if t.eqNum ACCOUNT_TOURNAMENT then
        match pyIndex item "id" with
        | .error e => .error e
        | .ok i =>
          match pyIndex item "tournament_name" with
          | .error e => .error e
          | .ok nm =>
            match pyIndex item "amount" with
            | .error e => .error e
            | .ok amt =>
              match tournamentLoop rest with
              | .error e => .error e
              | .ok tail =>
                .ok (.obj [("id", i), ("name", nm), ("balance", amt)] :: tail)
      else tournamentLoop rest

/-- `AccountManager.get_tournament_accounts`: fetch all balances (the
second `while balance_data is None` loop exits at once, the fetch just
returned), then filter the tournament entries. -/
def get_tournament_accounts (env : Env) : PyOutcome × List SentMsg :=
  match get_account_balances env with
  | (.ok v, sent) =>
    match pyIterate v with
    | .error e => (.exn e, sent)
    | .ok items =>
      match tournamentLoop items with
      | .error e => (.exn e, sent)
      | .ok accs => (.ok (.arr accs), sent)
  | other => other

/-- The five instrument types of `_portfolio_position_change`. -/
def instrumentTypes : List String :=
  ["cfd", "forex", "crypto", "digital-option", "binary-option"]

/-- `AccountManager._portfolio_position_change(msg_name, account_id)`:
one `portfolio.position-changed` subscribe/unsubscribe frame per
instrument type. -/
def portfolioPositionChange (msgName : String) (accountId : Json) : List SentMsg :=
  instrumentTypes.map (fun instrument =>
    ⟨msgName,
     .obj [("name", .str "portfolio.position-changed"),
           ("version", .str "2.0"),
           ("params", .obj [("routingFilters",
             .obj [("instrument_type", .str instrument),
                   ("user_balance_id", accountId)])])]⟩)

/-- `AccountManager._set_portfolio_subscription(account_id)`:
unsubscribe the old account (when one is set), switch
`current_account_id`, subscribe the new one. -/
def setPortfolioSubscription (c : ClientState) (accountId : Json) :
    ClientState × List SentMsg :=
  let unsub :=
    if c.currentAccountId.isNull then []
    else portfolioPositionChange "unsubscribeMessage" c.currentAccountId
  ({ c with currentAccountId := accountId },
   unsub ++ portfolioPositionChange "subscribeMessage" accountId)

/-- The target-account scan of `switch_account`: the id of the first
account matching the requested type, `None` when none matches. -/
def findTargetAccount (accountType : String) : List Json → Except PyErr Json
  | [] => .ok .null
  | a :: rest =>
    match pyIndex a "type" with
    | .error e => .error e
    | .ok t =>
      if (accountType.toLower == "real" && t.eqNum 1) ||
         (accountType.toLower == "demo" && t.eqNum 4) then
        pyIndex a "id"
      else findTargetAccount accountType rest

/-- `AccountManager.switch_account(account_type)`: validate the type
(invalid types log and return `None`), fetch balances, find the target
id, move the portfolio subscription, and on a confirmed switch set the
account type and log a line that fetches the fresh balance (an extra
query).  Returns `True` on success, `None` otherwise. -/
def switch_account_mgr (c : ClientState) (env : Env) (accountType : String) :
    PyOutcome × ClientState × List SentMsg :=
  if !(accountType.toLower == "real" || accountType.toLower == "demo") then
    (.ok .null, c, [])
  else
    match get_account_balances env with
    | (.ok v, sent) =>
      match pyIterate v with
      | .error e => (.exn e, c, sent)
      | .ok accounts =>
        match findTargetAccount accountType accounts with
        | .error e => (.exn e, c, sent)
        | .ok target =>
          let (c1, subSent) := setPortfolioSubscription c target
          if pyEq c1.currentAccountId target then
            let c2 := { c1 with currentAccountType := accountType.toLower }
            match get_active_account_balance c2 env with
            | (.ok _, sent2) => (.ok (.bool true), c2, sent ++ subSent ++ sent2)
            | (.exn e, sent2) => (.exn e, c2, sent ++ subSent ++ sent2)
            | (.hangs, sent2) => (.hangs, c2, sent ++ subSent ++ sent2)
          else (.ok .null, c1, sent ++ subSent)
    | (.exn e, sent) => (.exn e, c, sent)
    | (.hangs, sent) => (.hangs, c, sent)

/-- `get_asset_id(asset_name)` against the generated
`UNDERLYING_ASSESTS` table. -/
def get_asset_id (env : Env) (assetName : String) : Except PyErr Int :=
  match env.assetTable.lookup assetName with
  | some v => .ok v
  | none => .error ⟨"KeyError", assetName ++ " not found!"⟩

/-- `MarketManager.get_candle_history(asset_name, count, timeframe)`:
resets the candle projection, sends the `get-candles` query (the `to`
bound is the current server time), polls without timeout. -/
def get_candle_history_mgr (h : HState) (env : Env) (assetName : String)
    (count timeframe : Int) : PyOutcome × List SentMsg :=
  match get_asset_id env assetName with
  | .error e => (.exn e, [])
  | .ok aid =>
    let msg : Json :=
      .obj [("name", .str "get-candles"),
            ("version", .str "2.0"),
            ("body", .obj [("active_id", .num aid),
                           ("size", .num timeframe),
                           ("count", .num count),
                           ("to", h.server_time),
                           ("only_closed", .bool true),
                           ("split_normalization", .bool true)])]
    match pollNotNull env.candleSnaps with
    | some v => (.ok v, [⟨"sendMessage", msg⟩])
    | none => (.hangs, [⟨"sendMessage", msg⟩])

/-- `AccountManager._send_position_query(msg)`: resets
`hisory_positions`, sends, waits with the 10-second timeout. -/
def sendPositionQuery (env : Env) (msg : Json) : PyOutcome × List SentMsg :=
  match sendPositionQueryWait env.historySnaps with
  | .ok v => (.ok v, [⟨"sendMessage", msg⟩])
  | .error e => (.exn e, [⟨"sendMessage", msg⟩])

/-- `AccountManager.get_position_history_by_page`. -/
def get_position_history_by_page_mgr (c : ClientState) (env : Env)
    (instrumentType : Json) (limit offset : Int) : PyOutcome × List SentMsg :=
  let msg : Json :=
    .obj [("body", .obj [("instrument_types", instrumentType),
                         ("limit", .num limit),
                         ("offset", .num offset),
                         ("user_balance_id", c.currentAccountId)]),
          ("name", .str "portfolio.get-history-positions"),
          ("version", .str "2.0")]
  sendPositionQuery env msg

/-- `AccountManager.get_position_history_by_time`: the
`get_timestamps` conversion runs on the system clock and C `strptime`
(stdlib), so its result pair comes from the environment. -/
def get_position_history_by_time_mgr (c : ClientState) (env : Env)
    (instrumentType : Json) : PyOutcome × List SentMsg :=
  let msg : Json :=
    .obj [("body", .obj [("end", env.timestampsResult.2),
                         ("instrument_types", instrumentType),
                         ("start", env.timestampsResult.1),
                         ("user_balance_id", c.currentAccountId)]),
          ("name", .str "portfolio.get-history-positions"),
          ("version", .str "2.0")]
  sendPositionQuery env msg

/-- `_validate_options_trading_parameters`: the exception raised, if
any (the `isinstance` checks hold by the Lean argument types). -/
def validateOptionsTradingParameters (c : ClientState) (asset : String)
    (amount : Int) (direction : String) (expiry : Int) : Option PyErr :=
  if asset.trim == "" then
    some ⟨"InvalidTradeParametersError", "Asset name cannot be empty"⟩
  else if amount < 1 then
    some ⟨"InvalidTradeParametersError", "Minimum Bet Amount is $1"⟩
  else if !(direction.toLower.trim == "put" || direction.toLower.trim == "call") then
    some ⟨"InvalidTradeParametersError", "Direction must be put or call"⟩
  else if expiry < 1 then
    some ⟨"InvalidTradeParametersError", "Expiry must be positive integer"⟩
  else if pyFalsy c.currentAccountId then
    some ⟨"TradeExecutionError", "No active account available"⟩
  else none

/-- The `direction_map = {'put': 'P', 'call': 'C'}` lookup. -/
def directionMap (d : String) : Option String :=
  if d == "put" then some "P" else if d == "call" then some "C" else none

/-- `TradeManager._build_options_body`: asset id, expiration timestamp
(formatted by stdlib `strftime`, taken from the environment), and the
digital-option payload. -/
def build_options_body (c : ClientState) (env : Env) (asset : String)
    (amount : Int) (expiry : Int) (direction : String) : Except PyErr Json :=
  match get_asset_id env asset with
  | .error e => .error e
  | .ok activeId =>
    let mkBody (t : Int) : Except PyErr Json :=
      let expiration := get_expiration t expiry
      let dateFormatted := env.formatDate expiration
      let instrumentId :=
        "do" ++ toString activeId ++ "A" ++ dateFormatted.take 8 ++ "D" ++
        dateFormatted.drop 8 ++ "00T" ++ toString expiry ++ "M" ++ direction ++ "SPT"
      match pyInt c.currentAccountId with
      | .error e => .error e
      | .ok ubid =>
        .ok (.obj [("name", .str "digital-options.place-digital-option"),
                   ("version", .str "3.0"),
                   ("body", .obj [("user_balance_id", .num ubid),
                                  ("instrument_id", .str instrumentId),
                                  ("amount", .str (toString amount)),
                                  ("asset_id", .num activeId),
                                  ("instrument_index", .num 0)])])
    match c.handler.server_time with
    | .num t => mkBody t
    | .bool b => mkBody (if b then 1 else 0)
    | _ => .error ⟨"TypeError", "unsupported operand type for /"⟩

/-- `TradeManager._execute_digital_option_trade`: everything runs under
a `try` whose handlers log and return `None`, so a validation failure,
a `KeyError`, or any other exception yields `None`; on a sent order the
result is that of `wait_for_oreder_confirmation`. -/
def execute_digital_option_trade (c : ClientState) (env : Env) (asset : String)
    (amount : Int) (direction : String) (expiry : Int) : PyOutcome × List SentMsg :=
  let dirLower := direction.toLower
  match validateOptionsTradingParameters c asset amount dirLower expiry with
  | some _ => (.ok .null, [])
  | none =>
    match directionMap dirLower with
    | none => (.ok .null, [])
    | some dirCode =>
      let requestId := toString (env.randInt % 100001)
      match build_options_body c env asset amount expiry dirCode with
      | .error _ => (.ok .null, [])
      | .ok msg =>
        let sent : List SentMsg := [⟨"sendMessage", msg⟩]
        match wait_for_oreder_confirmation c.handler.server_time (.str requestId)
            expiry env.digitalPositionSnaps with
        | .ok v => (.ok v, sent)
        | .error _ => (.ok .null, sent)

/-- The poll loop of `get_trade_outcome` over `position_info`
snapshots: `(True, pnl)` once the order shows as closed, `(False,
None)` when the deadline passes first. -/
def tradeOutcomeLoop (orderId : JKey) : List JMap → PyOutcome
  | [] => .ok (.arr [.bool false, .null])
  | mp :: rest =>
    let orderData := (getKey mp orderId).getD (.obj [])
    if pyFalsy orderData then tradeOutcomeLoop orderId rest
    else
      match pyGet orderData "status" with
      | .error e => .exn e
      | .ok st =>
        if st.eqStr "closed" then
          match orderData with
          | .obj fs =>
            let pnl := (lookupField fs "pnl").getD (.num 0)
            match pnl with
            | .num p => .ok (.arr [.bool true, .num p])
            | .bool b => .ok (.arr [.bool true, .bool b])
            | _ => .exn ⟨"TypeError", "comparison not supported"⟩
          | _ => .exn ⟨"AttributeError", "object has no attribute get"⟩
        else tradeOutcomeLoop orderId rest

/-- `TradeManager.get_trade_outcome(order_id, expiry)`: the deadline is
`get_remaining_secs(server_time, expiry) + 3` (raising `TypeError` on a
`None` server time), then the polling loop; no frame is sent. -/
def get_trade_outcome (c : ClientState) (env : Env) (orderId : Json)
    (expiry : Int) : PyOutcome × List SentMsg :=
  let run (t : Int) : PyOutcome × List SentMsg :=
    let _ := get_remaining_secs t expiry
    match orderId.toKey with
    | .error e => (.exn e, [])
    | .ok k => (tradeOutcomeLoop k env.positionInfoSnaps, [])
  match c.handler.server_time with
  | .num t => run t
  | .bool b => run (if b then 1 else 0)
  | _ => (.exn ⟨"TypeError", "unsupported operand type for /"⟩, [])

/-- The public domain calls of `IQOptionAlgoAPI` guarded by
`_ensure_connected`. -/
inductive DomainCall where
  | getCurrentAccountBalance : DomainCall
  | refillDemoAccount (amount : Int) : DomainCall
  | getTournamentAccounts : DomainCall
  | switchAccount (accountType : String) : DomainCall
  | getCandleHistory (assetName : String) (count timeframe : Int) : DomainCall
  | getPositionHistoryByTime (instrumentType : Json) : DomainCall
  | getPositionHistoryByPage (instrumentType : Json) (limit offset : Int) : DomainCall
  | executeDigitalOptionTrade (asset : String) (amount : Int)
      (direction : String) (expiry : Int) : DomainCall
  | getTradeOutcome (orderId : Json) (expiry : Int) : DomainCall

/-- One façade method call: `_ensure_connected()` first, then the
delegation to the manager (the switch wrapper short-circuits a switch
to the type already active). -/
def runDomainCall (call : DomainCall) (c : ClientState) (env : Env) :
    PyOutcome × List SentMsg :=
  match ensureConnected c.connected with
  | some e => (.exn e, [])
  | none =>
    match call with
    | .getCurrentAccountBalance => get_active_account_balance c env
    | .refillDemoAccount amount => refill_demo_balance c.handler amount
    | .getTournamentAccounts => get_tournament_accounts env
    | .switchAccount t =>
      if t.toLower == c.currentAccountType then (.ok (.bool false), [])
      else
        let (out, _, sent) := switch_account_mgr c env t
        (out, sent)
    | .getCandleHistory a n tf => get_candle_history_mgr c.handler env a n tf
    | .getPositionHistoryByTime it => get_position_history_by_time_mgr c env it
    | .getPositionHistoryByPage it l o => get_position_history_by_page_mgr c env it l o
    | .executeDigitalOptionTrade a amt d e => execute_digital_option_trade c env a amt d e
    | .getTradeOutcome oid e => get_trade_outcome c env oid e

/-- A `position-changed` payload whose
`raw_event.order_ids = [555, 556]`, with arbitrary further fields. -/
def positionChangedPayload (extra : List (String × Json)) : Json :=
  .obj (("raw_event", .obj [("order_ids", .arr [.num 555, .num 556])]) :: extra)

/-! ## Helper lemmas -/

theorem getKey_setKey_self (m : JMap) (k : JKey) (v : Json) :
    getKey (setKey m k v) k = some v := by
  induction m with
  | nil => simp [setKey, getKey]
  | cons hd tl ih =>
    obtain ⟨k', v'⟩ := hd
    by_cases h : k' = k <;> simp [setKey, getKey, h, ih]

theorem getKey_setKey_ne (m : JMap) (k k' : JKey) (v : Json) (h : k' ≠ k) :
    getKey (setKey m k v) k' = getKey m k' := by
  have h' : ¬k = k' := fun hh => h hh.symm
  induction m with
  | nil => simp [setKey, getKey, h']
  | cons hd tl ih =>
    obtain ⟨k₀, v₀⟩ := hd
    by_cases h₀ : k₀ = k
    · subst h₀
      simp [setKey, getKey, h']
    · simp [setKey, getKey, h₀, ih]

theorem toKey_toJson (k : JKey) : Json.toKey k.toJson = .ok k := by
  cases k <;> rfl

/-- `handle_message` on a `digital-option-placed` envelope built from a
payload field list and a hashable request id: no exception, and the
digital open-position map is the prior map updated at the request id
with the id-or-message value. -/
theorem handle_digital_option_placed_eq (s : HState)
    (pfields : List (String × Json)) (rid : JKey) :
    handle_message
      (.obj [("name", .str "digital-option-placed"),
             ("msg", .obj pfields), ("request_id", rid.toJson)]) s =
    ({ s with open_positions_digital :=
        (setKey s.open_positions_digital rid
          (if (dictGetD pfields "id").isNull then dictGetD pfields "message"
           else dictGetD pfields "id")) }, none) := by
  have hkey := toKey_toJson rid
  by_cases h : ((lookupField pfields "id").getD Json.null).isNull = true <;>
    simp [handle_message, pyGet, pyIndex, dictGetD, lookupField, Json.eqStr,
      handleDigitalOptionPlaced, hkey, h]

/-! ## Claims -/

/-- C1: For every inbound order-placement confirmation handled by the
message handler, if the payload's `id` field is present (non-null) the
digital open-position map at the message's `request_id` afterwards holds
exactly that id; otherwise the same key holds the payload's `message`
value.  In particular `msg.id = 12345` with `request_id = "77"` stores
`12345` at key `"77"`, and `msg.message = "low balance"` stores
`"low balance"` there. -/
theorem digital_option_placed_outcome_discrimination (s : HState)
    (pfields : List (String × Json)) (rid : JKey) :
    (handle_message (.obj [("name", .str "digital-option-placed"),
        ("msg", .obj pfields), ("request_id", rid.toJson)]) s).2 = none ∧
    getKey (handle_message (.obj [("name", .str "digital-option-placed"),
        ("msg", .obj pfields), ("request_id", rid.toJson)]) s).1.open_positions_digital
      rid =
      some (if (dictGetD pfields "id").isNull then dictGetD pfields "message"
            else dictGetD pfields "id") ∧
    getKey (handle_message (.obj [("name", .str "digital-option-placed"),
        ("msg", .obj [("id", .num 12345)]), ("request_id", .str "77")]) s).1.open_positions_digital
      (.str "77") = some (.num 12345) ∧
    getKey (handle_message (.obj [("name", .str "digital-option-placed"),
        ("msg", .obj [("message", .str "low balance")]), ("request_id", .str "77")]) s).1.open_positions_digital
      (.str "77") = some (.str "low balance") := by
  refine ⟨?_, ?_, ?_, ?_⟩
  · rw [handle_digital_option_placed_eq]
  · rw [handle_digital_option_placed_eq]
    exact getKey_setKey_self ..
  · have h := handle_digital_option_placed_eq s [("id", .num 12345)] (.str "77")
    simp only [JKey.toJson, dictGetD, lookupField, Json.isNull] at h
    simp only [h, JKey.toJson]
    simp [getKey_setKey_self]
  · have h := handle_digital_option_placed_eq s [("message", .str "low balance")] (.str "77")
    simp only [JKey.toJson, dictGetD, lookupField, Json.isNull] at h
    simp only [h, JKey.toJson]
    simp [getKey_setKey_self]

/-- C2 counterexample: two confirmations carrying the same
`request_id = "77"` arrive in sequence, the first with `msg.id = 1`,
the second with `msg.id = 2`.  The map afterwards holds the second
frame's value `2`, not the first frame's `1`: the duplicate replaces
the earlier entry, so "first wins" fails on the code. -/
theorem duplicate_confirmation_first_wins_refuted :
    getKey (handle_message
        (.obj [("name", .str "digital-option-placed"),
               ("msg", .obj [("id", .num 2)]), ("request_id", .str "77")])
        (handle_message
          (.obj [("name", .str "digital-option-placed"),
                 ("msg", .obj [("id", .num 1)]), ("request_id", .str "77")])
          initHState).1).1.open_positions_digital (.str "77") = some (.num 2) ∧
    Json.num 2 ≠ Json.num 1 := by
  constructor
  · rfl
  · intro h
    injection h with h
    omega

/-- C2 amended: for every correlation key of the digital open-position
map, a duplicate confirmation frame carrying the same `request_id`
replaces the recorded value — the plain dict assignment in
`_handle_digital_option_placed` makes the last frame win, whatever the
first frame and the prior state held. -/
theorem duplicate_confirmation_last_wins (s : HState)
    (p1 p2 : List (String × Json)) (rid : JKey) :
    getKey (handle_message (.obj [("name", .str "digital-option-placed"),
        ("msg", .obj p2), ("request_id", rid.toJson)])
      (handle_message (.obj [("name", .str "digital-option-placed"),
        ("msg", .obj p1), ("request_id", rid.toJson)]) s).1).1.open_positions_digital
      rid =
    some (if (dictGetD p2 "id").isNull then dictGetD p2 "message"
          else dictGetD p2 "id") := by
  rw [handle_digital_option_placed_eq s p1 rid]
  rw [handle_digital_option_placed_eq _ p2 rid]
  exact getKey_setKey_self ..

theorem wait_confirmation_never_fulfilled (svrT : Json) (rid : JKey) (expiry : Int) :
    ∀ polls : List JMap, (∀ mp ∈ polls, (getKey mp rid).getD .null = .null) →
      wait_for_oreder_confirmation svrT rid expiry polls = .ok .null := by
  intro polls
  induction polls with
  | nil => intro _; rfl
  | cons mp rest ih =>
    intro h
    have h1 := h mp (List.mem_cons_self ..)
    have h2 : ∀ x ∈ rest, (getKey x rid).getD .null = .null :=
      fun x hx => h x (List.mem_cons_of_mem _ hx)
    simp only [wait_for_oreder_confirmation]
    cases hg : getKey mp rid with
    | none => exact ih h2
    | some v =>
      have hv : v = .null := by rw [hg] at h1; simpa using h1
      subst hv
      simpa [Json.isNull] using ih h2

theorem position_query_wait_never_fulfilled :
    ∀ hist : List Json, (∀ v ∈ hist, v.isNull = true) →
      sendPositionQueryWait hist =
        .error ⟨"TimeoutError", "Timeout waiting for position history response"⟩ := by
  intro hist
  induction hist with
  | nil => intro _; rfl
  | cons v rest ih =>
    intro h
    have h1 := h v (List.mem_cons_self ..)
    simp only [sendPositionQueryWait, h1, if_true]
    exact ih fun x hx => h x (List.mem_cons_of_mem _ hx)

/-- C3 counterexample: an order-confirmation wait whose response never
arrives (one hundred polls of an always-empty map, the 10-second
deadline with 0.1-second sleeps) returns `None` — the code logs "Order
Confirmation timed out" and falls through — rather than raising or
returning a `TimeoutError`, so the claim that both correlated waits
fail with `TimeoutError` is false on the code. -/
theorem order_confirmation_timeout_error_refuted :
    wait_for_oreder_confirmation .null (.str "77") 1
        (List.replicate 100 ([] : JMap)) = .ok .null ∧
    (Except.ok Json.null : Except PyErr Json) ≠
      .error ⟨"TimeoutError", "Order Confirmation timed out"⟩ := by
  constructor
  · rfl
  · intro h
    exact Except.noConfusion h

/-- C3 amended: a correlated wait on a response that never arrives
behaves asymmetrically once its configured timeout elapses — the
position-history wait (`_send_position_query`, 10-second timeout)
raises `TimeoutError`, while the order-confirmation wait
(`wait_for_oreder_confirmation`, 10-second default) only logs the
timeout and returns `None`.  Neither exits before the deadline: while
unfulfilled polls remain, both keep polling. -/
theorem correlated_wait_timeout_behaviour (svrT : Json) (rid : JKey)
    (expiry : Int) (polls : List JMap)
    (hpolls : ∀ mp ∈ polls, (getKey mp rid).getD .null = .null)
    (hist : List Json) (hhist : ∀ v ∈ hist, v.isNull = true) :
    wait_for_oreder_confirmation svrT rid expiry polls = .ok .null ∧
    sendPositionQueryWait hist =
      .error ⟨"TimeoutError", "Timeout waiting for position history response"⟩ :=
  ⟨wait_confirmation_never_fulfilled svrT rid expiry polls hpolls,
   position_query_wait_never_fulfilled hist hhist⟩

/-- Witness for the amended C3 theorem at one concrete unfulfilled
trace each. -/
theorem correlated_wait_timeout_behaviour_witness :
    wait_for_oreder_confirmation .null (.str "x") 1 [([] : JMap)] = .ok .null ∧
    sendPositionQueryWait [.null] =
      .error ⟨"TimeoutError", "Timeout waiting for position history response"⟩ :=
  correlated_wait_timeout_behaviour .null (.str "x") 1 [[]]
    (by intro mp hmp; rw [List.mem_singleton] at hmp; subst hmp; rfl)
    [.null]
    (by intro v hv; rw [List.mem_singleton] at hv; subst hv; rfl)

/-- C4 counterexample: a parseable `profile` frame whose payload lacks
`msg.balances` makes `_handle_profile` raise `KeyError`, which the
`try` of `_on_message` (catching only `json.JSONDecodeError`) lets
escape the receive callback — refuting the claim that no exception ever
escapes for any single frame. -/
theorem receive_callback_exception_escape :
    (stepEvent initWsState (.onMessage (some (.obj
        [("name", .str "profile"), ("msg", .obj [])])))).2 =
      some ⟨"KeyError", "balances"⟩ := by
  rfl

/-- C4 amended: the receive path contains exactly the JSON decode
failures — a frame that is not parseable JSON is logged and dropped
with no handler invoked, no state change and no escaping error — but a
parseable frame whose payload lacks fields a handler expects raises out
of the receive callback: a `profile` frame without `msg.balances` and a
`training-balance-reset` frame without `status` raise `KeyError`, and a
`position-changed` frame with empty `order_ids` raises `IndexError`. -/
theorem receive_path_containment_scope :
    (∀ w : WsState, stepEvent w (.onMessage none) = (w, none)) ∧
    (stepEvent initWsState (.onMessage (some (.obj
        [("name", .str "profile"), ("msg", .obj [])])))).2 =
      some ⟨"KeyError", "balances"⟩ ∧
    (stepEvent initWsState (.onMessage (some (.obj
        [("name", .str "training-balance-reset"), ("msg", .obj [])])))).2 =
      some ⟨"KeyError", "status"⟩ ∧
    (stepEvent initWsState (.onMessage (some (.obj
        [("name", .str "position-changed"),
         ("msg", .obj [("raw_event", .obj [("order_ids", .arr [])])])])))).2 =
      some ⟨"IndexError", "list index out of range"⟩ := by
  exact ⟨fun w => rfl, rfl, rfl, rfl⟩

/-- C5 counterexample: a domain call issued before the connection is
established fails by raising the generic built-in `Exception` (message
"Bot is not connected. Call connect() first."), whose class is not the
`NotConnectedError` the claim names — no such exception class exists
anywhere in the code. -/
theorem not_connected_error_class_refuted :
    (runDomainCall .getCurrentAccountBalance
        ⟨false, initHState, .null, "demo"⟩ {}).1 =
      .exn ⟨"Exception", notConnectedMsg⟩ ∧
    ("Exception" : String) ≠ "NotConnectedError" := by
  constructor
  · rfl
  · decide

/-- C5 amended: every public domain call (current-balance fetch, demo
refill, tournament-account fetch, account switch, candle-history fetch,
both position-history queries, digital-option trade, trade-outcome
fetch) made before the connected flag is set fails by raising a generic
`Exception` carrying the message "Bot is not connected. Call connect()
first." — the code has no dedicated `NotConnectedError` class — and
performs no send. -/
theorem domain_calls_guarded (call : DomainCall) (c : ClientState) (env : Env)
    (h : c.connected = false) :
    runDomainCall call c env = (.exn ⟨"Exception", notConnectedMsg⟩, []) := by
  simp [runDomainCall, ensureConnected, h]

/-- Witness for the amended C5 theorem at one concrete disconnected
client and call. -/
theorem domain_calls_guarded_witness :
    runDomainCall .getTournamentAccounts ⟨false, initHState, .null, "demo"⟩ {} =
      (.exn ⟨"Exception", notConnectedMsg⟩, []) :=
  domain_calls_guarded .getTournamentAccounts
    ⟨false, initHState, .null, "demo"⟩ {} rfl

theorem runEvents_no_parsed_inactive :
    ∀ (evs : List WsEvent) (w : WsState), w.ws_is_active = false →
      (∀ m : Json, WsEvent.onMessage (some m) ∉ evs) →
      (runEvents w evs).ws_is_active = false := by
  intro evs
  induction evs with
  | nil => intro w hw _; simpa [runEvents] using hw
  | cons ev rest ih =>
    intro w hw h
    have hrest : ∀ m : Json, WsEvent.onMessage (some m) ∉ rest :=
      fun m hm => h m (List.mem_cons_of_mem _ hm)
    have hstep : ((stepEvent w ev).1).ws_is_active = false := by
      cases ev with
      | onOpen => simpa [stepEvent] using hw
      | onMessage p =>
        cases p with
        | none => simpa [stepEvent] using hw
        | some m => exact absurd (List.mem_cons_self ..) (h m)
    have : runEvents w (ev :: rest) = runEvents (stepEvent w ev).1 rest := rfl
    rw [this]
    exact ih _ hstep hrest

/-- C6: the connection-active flag is never true before the first
successfully parsed inbound frame — it is false at construction,
unchanged by the socket-open callback, stays false across any run of
callbacks containing no parsed frame, and a step can turn it true only
when its event is an inbound frame that parsed and whose handling
raised nothing. -/
theorem ws_active_only_after_parsed_frame :
    initWsState.ws_is_active = false ∧
    (∀ w, (stepEvent w .onOpen).1.ws_is_active = w.ws_is_active) ∧
    (∀ evs : List WsEvent, (∀ m : Json, WsEvent.onMessage (some m) ∉ evs) →
      (runEvents initWsState evs).ws_is_active = false) ∧
    (∀ w ev, (stepEvent w ev).1.ws_is_active = true →
      w.ws_is_active = true ∨
      ∃ m, ev = WsEvent.onMessage (some m) ∧
        (handle_message m w.handler).2 = none) := by
  refine ⟨rfl, fun w => rfl, ?_, ?_⟩
  · intro evs h
    exact runEvents_no_parsed_inactive evs initWsState rfl h
  · intro w ev hactive
    cases ev with
    | onOpen => exact Or.inl hactive
    | onMessage p =>
      cases p with
      | none => exact Or.inl hactive
      | some m =>
        rcases hm : handle_message m w.handler with ⟨h', e?⟩
        cases e? with
        | some e =>
          left
          rw [show (stepEvent w (.onMessage (some m))).1.ws_is_active =
              w.ws_is_active from by simp [stepEvent, hm]] at hactive
          exact hactive
        | none => exact Or.inr ⟨m, rfl, by rw [hm]⟩

/-- Witness for C6's step characterization: a step on an already-active
manager hitting the socket-open callback. -/
theorem ws_active_only_after_parsed_frame_witness :
    (⟨true, initHState⟩ : WsState).ws_is_active = true ∨
    ∃ m, WsEvent.onOpen = WsEvent.onMessage (some m) ∧
      (handle_message m (⟨true, initHState⟩ : WsState).handler).2 = none :=
  ws_active_only_after_parsed_frame.2.2.2 ⟨true, initHState⟩ .onOpen rfl

/-- C7: the candle projection has replace-wholesale semantics — after
two successive `candles` pushes, handled in order from any prior state,
the projection equals exactly the second message's `msg.candles`
contents, with nothing merged or appended from the first batch or from
any earlier state; both handlings return normally. -/
theorem candles_replace_wholesale (s : HState) (c1 c2 : Json) :
    (handle_message (.obj [("name", .str "candles"), ("msg", .obj [("candles", c2)])])
      (handle_message (.obj [("name", .str "candles"), ("msg", .obj [("candles", c1)])])
        s).1).1.candles = c2 ∧
    (handle_message (.obj [("name", .str "candles"), ("msg", .obj [("candles", c2)])])
      (handle_message (.obj [("name", .str "candles"), ("msg", .obj [("candles", c1)])])
        s).1).2 = none := by
  exact ⟨rfl, rfl⟩

/-- C8: handling a `position-changed` event whose payload carries
`msg.raw_event.order_ids = [555, 556]` returns normally and updates the
closed/changed-position map only at key `555` (the first listed order
id), storing the full event payload there; every other key of that map
and every other projection field of the handler is unchanged.  (The
handler additionally writes the payload to a debug file, which is not
handler state.) -/
theorem position_changed_single_key_update (s : HState)
    (extra : List (String × Json)) :
    (handle_message (.obj [("name", .str "position-changed"),
        ("msg", positionChangedPayload extra)]) s).2 = none ∧
    getKey (handle_message (.obj [("name", .str "position-changed"),
        ("msg", positionChangedPayload extra)]) s).1.position_info (.num 555) =
      some (positionChangedPayload extra) ∧
    (∀ k : JKey, k ≠ .num 555 →
      getKey (handle_message (.obj [("name", .str "position-changed"),
          ("msg", positionChangedPayload extra)]) s).1.position_info k =
        getKey s.position_info k) ∧
    (handle_message (.obj [("name", .str "position-changed"),
        ("msg", positionChangedPayload extra)]) s).1.server_time = s.server_time ∧
    (handle_message (.obj [("name", .str "position-changed"),
        ("msg", positionChangedPayload extra)]) s).1.profile_msg = s.profile_msg ∧
    (handle_message (.obj [("name", .str "position-changed"),
        ("msg", positionChangedPayload extra)]) s).1.balance_data = s.balance_data ∧
    (handle_message (.obj [("name", .str "position-changed"),
        ("msg", positionChangedPayload extra)]) s).1.candles = s.candles ∧
    (handle_message (.obj [("name", .str "position-changed"),
        ("msg", positionChangedPayload extra)]) s).1.underlying_list = s.underlying_list ∧
    (handle_message (.obj [("name", .str "position-changed"),
        ("msg", positionChangedPayload extra)]) s).1.initialization_data = s.initialization_data ∧
    (handle_message (.obj [("name", .str "position-changed"),
        ("msg", positionChangedPayload extra)]) s).1.underlying_assests = s.underlying_assests ∧
    (handle_message (.obj [("name", .str "position-changed"),
        ("msg", positionChangedPayload extra)]) s).1.hisory_positions = s.hisory_positions ∧
    (handle_message (.obj [("name", .str "position-changed"),
        ("msg", positionChangedPayload extra)]) s).1.open_positions_digital = s.open_positions_digital ∧
    (handle_message (.obj [("name", .str "position-changed"),
        ("msg", positionChangedPayload extra)]) s).1.open_positions_binary = s.open_positions_binary ∧
    (handle_message (.obj [("name", .str "position-changed"),
        ("msg", positionChangedPayload extra)]) s).1.active_balance_id = s.active_balance_id := by
  refine ⟨rfl, ?_, ?_, rfl, rfl, rfl, rfl, rfl, rfl, rfl, rfl, rfl, rfl, rfl⟩
  · exact getKey_setKey_self ..
  · intro k hk
    exact getKey_setKey_ne s.position_info (.num 555) k
      (positionChangedPayload extra) hk

/-- Witness for C8's unchanged-other-keys clause at a concrete state
and key. -/
theorem position_changed_single_key_update_witness :
    getKey (handle_message (.obj [("name", .str "position-changed"),
        ("msg", positionChangedPayload [])]) initHState).1.position_info
      (.num 556) = getKey initHState.position_info (.num 556) :=
  (position_changed_single_key_update initHState []).2.2.1 (.num 556) (by decide)

/-- C9: the envelope codec round-trips — re-encoding the
`{name, msg, request_id}` triple decoded from any well-formed envelope
frame reproduces a frame with the same logical triple, and decoding an
encoded triple always returns that triple: encode and decode are
mutually inverse up to logical (field-value) equality. -/
theorem envelope_codec_roundtrip :
    (∀ n m r : Json, decodeEnvelope (encodeEnvelope n m r) = some (n, m, r)) ∧
    (∀ j n m r : Json, decodeEnvelope j = some (n, m, r) →
      decodeEnvelope (encodeEnvelope n m r) = some (n, m, r)) := by
  constructor
  · intro n m r; rfl
  · intro j n m r _; rfl

/-- Witness for C9's well-formed-frame clause at a concrete frame. -/
theorem envelope_codec_roundtrip_witness :
    decodeEnvelope (encodeEnvelope (.str "candles") (.obj []) (.str "5")) =
      some (.str "candles", .obj [], .str "5") :=
  envelope_codec_roundtrip.2
    (.obj [("name", .str "candles"), ("msg", .obj []), ("request_id", .str "5")])
    (.str "candles") (.obj []) (.str "5") rfl

/-- C10: an inbound message (dict-shaped, as `handle_message`'s
contract requires) whose `name` is not one of the ten registered
handler names — including a message with no `name` field — is silently
ignored: `handle_message` returns normally and leaves every field of
the handler state unchanged. -/
theorem unknown_message_names_ignored (fs : List (String × Json)) (s : HState)
    (h : isRegisteredName (dictGetD fs "name") = false) :
    handle_message (.obj fs) s = (s, none) := by
  simp only [isRegisteredName, Bool.or_eq_false_iff] at h
  obtain ⟨⟨⟨⟨⟨⟨⟨⟨⟨h1, h2⟩, h3⟩, h4⟩, h5⟩, h6⟩, h7⟩, h8⟩, h9⟩, h10⟩ := h
  simp [handle_message, pyGet, h1, h2, h3, h4, h5, h6, h7, h8, h9, h10]

/-- Witness for C10 at a concrete unregistered push name. -/
theorem unknown_message_names_ignored_witness :
    handle_message (.obj [("name", .str "unknown-push")]) initHState =
      (initHState, none) :=
  unknown_message_names_ignored [("name", .str "unknown-push")] initHState rfl

end IQBot
